import Mathlib

/-!
Verification development for the chart-extraction and forecasting core of the
insights-plus-for-github-projects browser extension.

Modelling conventions, shared by all sections:

* JavaScript `Date` values are modelled as timestamps: integers (`ℤ`) counting
  milliseconds where the code only ever stores whole milliseconds, and
  rationals (`ℚ`) where the code produces fractional timestamps by arithmetic.
* JavaScript `number` values are modelled as `ℚ`.  `NaN` is not representable
  in the model; the `isNaN` filters of the source are therefore identity on
  the model's inputs and are not reproduced.  `Math.round x` is modelled as
  `⌊x + 1/2⌋` (its behaviour on all non-`NaN` inputs).
* `Array.prototype.sort` (stable since ES2019) is modelled by
  `List.insertionSort`, which is also a stable sort, with the comparator's
  order relation.
* The ambient clock (`new Date()` and derived end-of-day values) is passed as
  an explicit parameter.
* Nullable values are modelled as `Option`.
-/

namespace VelocityCalc

/-- Milliseconds per day, as a rational, used for day-span divisions. -/
def msPerDay : ℚ := 86400000

/-- Milliseconds per day, as an integer, used for date arithmetic. -/
def msPerDayZ : ℤ := 86400000

/-- A completed-series observation: `{date, value}` with the date as a
millisecond timestamp.  Mirrors `DataPoint` of the velocity calculator
module. -/
structure DataPoint where
  date : ℤ
  value : ℚ
deriving DecidableEq, Repr

instance : Inhabited DataPoint := ⟨⟨0, 0⟩⟩

/-- The result record of `calculateVelocity` (`VelocityResult` in the
source): a nullable daily rate together with the nullable window it was
computed over. -/
structure VelocityResult where
  current : Option ℚ
  periodStartDate : Option ℤ
  periodEndDate : Option ℤ
  periodStartValue : Option ℚ
  periodEndValue : Option ℚ
deriving DecidableEq, Repr

/-- The all-null result returned on empty input or a non-positive day span. -/
def emptyResult : VelocityResult :=
  { current := none, periodStartDate := none, periodEndDate := none,
    periodStartValue := none, periodEndValue := none }

/-- Comparator used by `completedData.sort((a, b) => a.date - b.date)`:
ascending by date. -/
def dateLe (a b : DataPoint) : Prop := a.date ≤ b.date

instance : DecidableRel dateLe := fun a b => Int.decLe a.date b.date

/-- The date-sorted copy of the input series (`sortedData` in the source).
The source's `isNaN` filter drops nothing in a model without `NaN`. -/
def sortedData (completedData : List DataPoint) : List DataPoint :=
  List.insertionSort dateLe completedData

/-- The loop that scans the sorted series in order, remembering the last
point dated on-or-before `todayEnd` and stopping at the first later point. -/
def findLatestLoop (todayEnd : ℤ) : List DataPoint → Option DataPoint → Option DataPoint
  | [], acc => acc
  | p :: rest, acc =>
      if p.date ≤ todayEnd then findLatestLoop todayEnd rest (some p) else acc

/-- The `latestPoint` of the source: the last sorted point dated on-or-before
`todayEnd`, falling back to the first sorted point when every point is in the
future. -/
def latestPoint (completedData : List DataPoint) (todayEnd : ℤ) : DataPoint :=
  (findLatestLoop todayEnd (sortedData completedData) none).getD
    (sortedData completedData).headI

/-- The lookback cutoff, `todayEnd` minus `lookbackDays` days.  The source
computes this with `setDate`, which this model treats as fixed 24-hour days
(daylight-saving shifts are not modelled). -/
def lookbackDate (todayEnd lookbackDays : ℤ) : ℤ :=
  todayEnd - lookbackDays * msPerDayZ

/-- The sorted points falling inside `[lookbackDate, todayEnd]`
(`recentPoints` in the source). -/
def recentPoints (completedData : List DataPoint) (todayEnd lookbackDays : ℤ) :
    List DataPoint :=
  (sortedData completedData).filter fun p =>
    decide (lookbackDate todayEnd lookbackDays ≤ p.date ∧ p.date ≤ todayEnd)

/-- Day span from the project start to the latest observation (`totalDays`). -/
def totalDays (completedData : List DataPoint) (todayEnd startDate : ℤ) : ℚ :=
  ((latestPoint completedData todayEnd).date - startDate : ℤ) / msPerDay

/-- The all-time fallback rate:
`(latestValue - startValue) / (latestDate - startDate in days)`. -/
def allTimeRate (completedData : List DataPoint) (todayEnd startDate : ℤ)
    (startValue : ℚ) : ℚ :=
  ((latestPoint completedData todayEnd).value - startValue) /
    totalDays completedData todayEnd startDate

/-- First point inside the lookback window (`firstRecentPoint`). -/
def firstRecent (completedData : List DataPoint) (todayEnd lookbackDays : ℤ) :
    DataPoint :=
  (recentPoints completedData todayEnd lookbackDays).headI

/-- Last point inside the lookback window (`lastRecentPoint`). -/
def lastRecent (completedData : List DataPoint) (todayEnd lookbackDays : ℤ) :
    DataPoint :=
  (recentPoints completedData todayEnd lookbackDays).getLastD default

/-- The windowed period's start date: the first in-window point's date,
clamped to the project start when the window begins earlier. -/
def periodStartDate (completedData : List DataPoint) (todayEnd lookbackDays startDate : ℤ) :
    ℤ :=
  if (firstRecent completedData todayEnd lookbackDays).date < startDate then startDate
  else (firstRecent completedData todayEnd lookbackDays).date

/-- The windowed period's start value: the project start value when clamped,
otherwise the value of the first sorted point strictly before the period
start (`sortedData.find`, which returns the first match), falling back to the
first in-window point's value. -/
def periodStartValue (completedData : List DataPoint)
    (todayEnd lookbackDays startDate : ℤ) (startValue : ℚ) : ℚ :=
  if (firstRecent completedData todayEnd lookbackDays).date < startDate then startValue
  else
    match (sortedData completedData).find? (fun p =>
        decide (p.date < periodStartDate completedData todayEnd lookbackDays startDate)) with
    | some p => p.value
    | none => (firstRecent completedData todayEnd lookbackDays).value

/-- Day span of the windowed period (`daysDiff`). -/
def daysDiff (completedData : List DataPoint) (todayEnd lookbackDays startDate : ℤ) : ℚ :=
  ((lastRecent completedData todayEnd lookbackDays).date -
      periodStartDate completedData todayEnd lookbackDays startDate : ℤ) / msPerDay

/-- The windowed rate: progress across the period divided by its day span. -/
def windowRate (completedData : List DataPoint) (todayEnd lookbackDays startDate : ℤ)
    (startValue : ℚ) : ℚ :=
  ((lastRecent completedData todayEnd lookbackDays).value -
      periodStartValue completedData todayEnd lookbackDays startDate startValue) /
    daysDiff completedData todayEnd lookbackDays startDate

/-- The source expression `velocity !== null && velocity > 0 ? velocity : null`:
keep a computed rate only when it is strictly positive. -/
def clipPositive (velocity : Option ℚ) : Option ℚ :=
  match velocity with
  | some v => if 0 < v then some v else none
  | none => none

/-- Shallow embedding of `calculateVelocity` (velocity calculator module).
`todayEnd` stands for the source's `todayEnd` (end of the current day); the
other parameters mirror the source's parameters. -/
def calculateVelocity (completedData : List DataPoint) (startDate : ℤ)
    (startValue : ℚ) (lookbackDays : ℤ) (todayEnd : ℤ) : VelocityResult :=
  if completedData = [] then emptyResult
  else if sortedData completedData = [] then emptyResult
  else if (recentPoints completedData todayEnd lookbackDays).length < 2 then
    if totalDays completedData todayEnd startDate ≤ 0 then emptyResult
    else
      let velocity : Option ℚ :=
        if 0 < totalDays completedData todayEnd startDate then
          some (allTimeRate completedData todayEnd startDate startValue)
        else none
      { current := clipPositive velocity,
        periodStartDate := some startDate,
        periodEndDate := some (latestPoint completedData todayEnd).date,
        periodStartValue := some startValue,
        periodEndValue := some (latestPoint completedData todayEnd).value }
  else
    if daysDiff completedData todayEnd lookbackDays startDate ≤ 0 then emptyResult
    else
      let velocity : Option ℚ :=
        if 0 < daysDiff completedData todayEnd lookbackDays startDate then
          some (windowRate completedData todayEnd lookbackDays startDate startValue)
        else none
      { current := clipPositive velocity,
        periodStartDate := some (periodStartDate completedData todayEnd lookbackDays startDate),
        periodEndDate := some (lastRecent completedData todayEnd lookbackDays).date,
        periodStartValue := some (periodStartValue completedData todayEnd lookbackDays startDate startValue),
        periodEndValue := some (lastRecent completedData todayEnd lookbackDays).value }

/-- A clipped rate is only ever a strictly positive rational. -/
lemma clipPositive_eq_some {o : Option ℚ} {v : ℚ} (h : clipPositive o = some v) :
    0 < v := by
  cases o with
  | none => simp [clipPositive] at h
  | some w =>
    simp only [clipPositive] at h
    split at h
    · cases h; assumption
    · cases h

/-- Clipping a non-positive rate yields `none`. -/
lemma clipPositive_some_nonpos {v : ℚ} (hv : v ≤ 0) : clipPositive (some v) = none := by
  simp [clipPositive, not_lt.mpr hv]

/-- Simp set that evaluates `calculateVelocity` on concrete inputs. -/
lemma sortedData_nil : sortedData [] = [] := rfl

/-- C1: `calculateVelocity` reports a `none` rate whenever the branch it takes
computes a non-positive day span (`totalDays` in the fallback branch,
`daysDiff` in the windowed branch) or a non-positive rate, and any reported
rate is strictly positive — never zero or negative. -/
theorem calculateVelocity_rate_null_or_positive (cd : List DataPoint) (sd : ℤ)
    (sv : ℚ) (lb te : ℤ) :
    (∀ v, (calculateVelocity cd sd sv lb te).current = some v → 0 < v) ∧
    ((recentPoints cd te lb).length < 2 → totalDays cd te sd ≤ 0 →
      (calculateVelocity cd sd sv lb te).current = none) ∧
    ((recentPoints cd te lb).length < 2 → allTimeRate cd te sd sv ≤ 0 →
      (calculateVelocity cd sd sv lb te).current = none) ∧
    (2 ≤ (recentPoints cd te lb).length → daysDiff cd te lb sd ≤ 0 →
      (calculateVelocity cd sd sv lb te).current = none) ∧
    (2 ≤ (recentPoints cd te lb).length → windowRate cd te lb sd sv ≤ 0 →
      (calculateVelocity cd sd sv lb te).current = none) := by
  refine ⟨?_, ?_, ?_, ?_, ?_⟩
  · intro v hv
    unfold calculateVelocity at hv
    split at hv; · simp [emptyResult] at hv
    split at hv; · simp [emptyResult] at hv
    split at hv
    · split at hv
      · simp [emptyResult] at hv
      · exact clipPositive_eq_some hv
    · split at hv
      · simp [emptyResult] at hv
      · exact clipPositive_eq_some hv
  · intro hlen hdays
    unfold calculateVelocity
    split_ifs with h1 h2 h3 h4 h5 <;>
      simp_all [emptyResult, clipPositive_some_nonpos]
  · intro hlen hrate
    unfold calculateVelocity
    split_ifs with h1 h2 h3 h4 h5 <;>
      simp_all [emptyResult, clipPositive_some_nonpos]
  · intro hlen hdiff
    unfold calculateVelocity
    split_ifs with h1 h2 h3 h4 h5 <;>
      simp_all [emptyResult, clipPositive_some_nonpos] <;> omega
  · intro hlen hrate
    unfold calculateVelocity
    split_ifs with h1 h2 h3 h4 h5 <;>
      simp_all [emptyResult, clipPositive_some_nonpos] <;> omega

/-- Witness for C1 at the spec's example series: one in-window point dated
day 9 with value 20, project start at time 0 value 0; the reported rate is
`20/9` and the theorem yields its positivity. -/
theorem calculateVelocity_rate_null_or_positive_witness :
    (calculateVelocity [⟨777600000, 20⟩] 0 0 21 864000000).current = some (20/9) ∧
    (0 : ℚ) < 20/9 := by
  constructor
  · norm_num [calculateVelocity, sortedData, recentPoints, totalDays, allTimeRate,
      latestPoint, findLatestLoop, lookbackDate, msPerDay, msPerDayZ, clipPositive,
      List.insertionSort, List.orderedInsert, List.filter, emptyResult]
  · exact (calculateVelocity_rate_null_or_positive [⟨777600000, 20⟩] 0 0 21 864000000).1
      (20/9)
      (by norm_num [calculateVelocity, sortedData, recentPoints, totalDays, allTimeRate,
        latestPoint, findLatestLoop, lookbackDate, msPerDay, msPerDayZ, clipPositive,
        List.insertionSort, List.orderedInsert, List.filter, emptyResult])

/-- C2: with fewer than two in-window points, `calculateVelocity` falls back
to the all-time rate from the project start anchor and reports it (not
`null`) together with the all-time window, provided the day span and the
rate are positive. -/
theorem calculateVelocity_lookback_fallback (cd : List DataPoint) (sd : ℤ)
    (sv : ℚ) (lb te : ℤ)
    (h0 : cd ≠ [])
    (h1 : (recentPoints cd te lb).length < 2)
    (h2 : 0 < totalDays cd te sd)
    (h3 : 0 < allTimeRate cd te sd sv) :
    calculateVelocity cd sd sv lb te =
      { current := some (allTimeRate cd te sd sv),
        periodStartDate := some sd,
        periodEndDate := some (latestPoint cd te).date,
        periodStartValue := some sv,
        periodEndValue := some (latestPoint cd te).value } := by
  have hsort : sortedData cd ≠ [] := by
    intro h
    have hperm : (sortedData cd).Perm cd := List.perm_insertionSort dateLe cd
    rw [h] at hperm
    exact h0 hperm.symm.eq_nil
  unfold calculateVelocity
  rw [if_neg h0, if_neg hsort, if_pos h1, if_neg (not_le.mpr h2)]
  simp [clipPositive, if_pos h2, if_pos h3]

/-- Witness for C2: a single in-window point nine days after the start with
value 20 against a start value of 2 reports the all-time rate 2. -/
theorem calculateVelocity_lookback_fallback_witness :
    (calculateVelocity [⟨777600000, 20⟩] 0 2 21 864000000).current = some 2 := by
  rw [calculateVelocity_lookback_fallback [⟨777600000, 20⟩] 0 2 21 864000000
    (by simp)
    (by norm_num [recentPoints, sortedData, lookbackDate, msPerDayZ,
      List.insertionSort, List.orderedInsert, List.filter])
    (by norm_num [totalDays, latestPoint, findLatestLoop, sortedData, msPerDay,
      List.insertionSort, List.orderedInsert])
    (by norm_num [allTimeRate, totalDays, latestPoint, findLatestLoop, sortedData,
      msPerDay, List.insertionSort, List.orderedInsert])]
  norm_num [allTimeRate, totalDays, latestPoint, findLatestLoop, sortedData,
    msPerDay, List.insertionSort, List.orderedInsert]

/-- C3 counterexample: a series whose only point lies one day after the
project start but below the start value gives a positive day span with a
negative rate; the returned record has a `none` rate alongside populated
period fields, so the fields are not all-null-or-all-populated together. -/
theorem velocityResult_fields_counterexample :
    (calculateVelocity [⟨86400000, 0⟩] 0 10 21 864000000).current = none ∧
    (calculateVelocity [⟨86400000, 0⟩] 0 10 21 864000000).periodStartDate = some 0 := by
  constructor <;>
    norm_num [calculateVelocity, sortedData, recentPoints, totalDays, allTimeRate,
      latestPoint, findLatestLoop, lookbackDate, msPerDay, msPerDayZ, clipPositive,
      List.insertionSort, List.orderedInsert, List.filter, emptyResult]

/-- C3 (amended): the four period fields of a `VelocityResult` are null
together or populated together, and a non-null rate is always accompanied by
a populated period; but a null rate may come with a populated period (when a
computed non-positive rate over a positive day span is suppressed). -/
theorem velocityResult_period_fields_aligned (cd : List DataPoint) (sd : ℤ)
    (sv : ℚ) (lb te : ℤ) :
    (((calculateVelocity cd sd sv lb te).periodStartDate = none ↔
        (calculateVelocity cd sd sv lb te).periodEndDate = none) ∧
      ((calculateVelocity cd sd sv lb te).periodStartDate = none ↔
        (calculateVelocity cd sd sv lb te).periodStartValue = none) ∧
      ((calculateVelocity cd sd sv lb te).periodStartDate = none ↔
        (calculateVelocity cd sd sv lb te).periodEndValue = none)) ∧
    (∀ v, (calculateVelocity cd sd sv lb te).current = some v →
      (calculateVelocity cd sd sv lb te).periodStartDate ≠ none) := by
  unfold calculateVelocity
  split_ifs <;> simp [emptyResult]

/-- Witness for C3 (amended) at a concrete populated result. -/
theorem velocityResult_period_fields_aligned_witness :
    (calculateVelocity [⟨777600000, 20⟩] 0 0 21 864000000).periodStartDate ≠ none :=
  (velocityResult_period_fields_aligned [⟨777600000, 20⟩] 0 0 21 864000000).2
    (20/9)
    (by norm_num [calculateVelocity, sortedData, recentPoints, totalDays, allTimeRate,
      latestPoint, findLatestLoop, lookbackDate, msPerDay, msPerDayZ, clipPositive,
      List.insertionSort, List.orderedInsert, List.filter, emptyResult])

end VelocityCalc

namespace PredictionCalc

/-- Milliseconds per day as a rational. -/
def msPerDay : ℚ := 86400000

/-- JavaScript `Math.round`: round half toward positive infinity, i.e.
`⌊x + 1/2⌋`.  Defined through `Rat.floor` to stay computable. -/
def jsRound (q : ℚ) : ℤ := (q + 1/2).floor

/-- The `{total, completed}` part of `BurnupChartData` consumed by
`calculatePrediction`. -/
structure BurnupChartData where
  total : ℚ
  completed : ℚ
deriving DecidableEq, Repr

/-- The `Prediction` record of the source.  Timestamps are rationals because
the computed completion date is `today + remaining/velocity` days, a
fractional timestamp. -/
structure Prediction where
  completionDate : Option ℚ
  dueDate : Option ℚ
  idealVelocity : Option ℚ
  isOnTrack : Option Bool
  daysAhead : Option ℤ
deriving DecidableEq, Repr

/-- Shallow embedding of `calculatePrediction` (prediction calculator
module).  `today` stands for the source's `new Date()` timestamp. -/
def calculatePrediction (data : BurnupChartData) (currentVelocity : Option ℚ)
    (dueDate : Option ℚ) (today : ℚ) : Prediction :=
  let remaining := max 0 (data.total - data.completed)
  if remaining = 0 then
    { completionDate := some today,
      dueDate := dueDate,
      idealVelocity := some 0,
      isOnTrack := some true,
      daysAhead := dueDate.map fun d => jsRound ((d - today) / msPerDay) }
  else
    let completionDate : Option ℚ :=
      match currentVelocity with
      | some v => if 0 < v then some (today + remaining / v * msPerDay) else none
      | none => none
    match dueDate with
    | none =>
        { completionDate := completionDate, dueDate := none,
          idealVelocity := none, isOnTrack := none, daysAhead := none }
    | some due =>
        let daysUntilDue := (due - today) / msPerDay
        let idealVelocity : Option ℚ :=
          if 0 < daysUntilDue then some (remaining / daysUntilDue) else none
        match completionDate with
        | none =>
            { completionDate := none, dueDate := some due,
              idealVelocity := idealVelocity, isOnTrack := none, daysAhead := none }
        | some c =>
            let daysAhead := jsRound ((due - c) / msPerDay)
            { completionDate := some c, dueDate := some due,
              idealVelocity := idealVelocity,
              isOnTrack := some (decide (0 ≤ daysAhead)),
              daysAhead := some daysAhead }

/-- Bridge from `Rat.floor`, used in `jsRound` for computability, to the
`⌊⌋` notation that `norm_num` evaluates. -/
lemma jsRound_eq_floor (q : ℚ) : jsRound q = ⌊q + 1/2⌋ := by
  rw [jsRound, Rat.floor_def', Rat.floor_def]

/-- C4 counterexample: with one unit of work remaining, a velocity of 4 per
day and a due date equal to `today`, the projected completion lands a quarter
day past the due date; `daysAhead` rounds to `0`, so the code reports
on-track `true` even though the completion date exceeds the due date —
refuting `on-track = true exactly when completionDate ≤ dueDate`. -/
theorem calculatePrediction_onTrack_counterexample :
    (calculatePrediction ⟨1, 0⟩ (some 4) (some 0) 0).isOnTrack = some true ∧
    (calculatePrediction ⟨1, 0⟩ (some 4) (some 0) 0).completionDate = some 21600000 ∧
    (calculatePrediction ⟨1, 0⟩ (some 4) (some 0) 0).dueDate = some 0 ∧
    ¬ ((21600000 : ℚ) ≤ 0) := by
  refine ⟨?_, ?_, ?_, by norm_num⟩ <;>
    norm_num [calculatePrediction, jsRound_eq_floor, msPerDay]

/-- C4 (amended): with remaining work positive, a due date supplied and a
non-null completion date, `daysAhead` is `round((due - completion) in days)`,
on-track holds exactly when that rounded delta is non-negative (not exactly
when `completion ≤ due`), and the ideal rate is `remaining / daysUntilDue`
when `daysUntilDue > 0` and null otherwise. -/
theorem calculatePrediction_due_date_fields (data : BurnupChartData)
    (v : ℚ) (due : ℚ) (today : ℚ)
    (hrem : 0 < data.total - data.completed)
    (hv : 0 < v) :
    ∃ c, (calculatePrediction data (some v) (some due) today).completionDate = some c ∧
      c = today + (data.total - data.completed) / v * msPerDay ∧
      (calculatePrediction data (some v) (some due) today).daysAhead =
        some (jsRound ((due - c) / msPerDay)) ∧
      ((calculatePrediction data (some v) (some due) today).isOnTrack = some true ↔
        0 ≤ jsRound ((due - c) / msPerDay)) ∧
      (calculatePrediction data (some v) (some due) today).idealVelocity =
        (if 0 < (due - today) / msPerDay then
          some ((data.total - data.completed) / ((due - today) / msPerDay))
        else none) := by
  have hmax : max 0 (data.total - data.completed) = data.total - data.completed :=
    max_eq_right hrem.le
  have hne : ¬ (max 0 (data.total - data.completed) = 0) := by
    rw [hmax]; exact hrem.ne'
  refine ⟨today + (data.total - data.completed) / v * msPerDay, ?_⟩
  unfold calculatePrediction
  rw [if_neg hne]
  simp only [hmax, if_pos hv]
  refine ⟨?_, ?_, ?_, ?_, ?_⟩ <;> simp [decide_eq_true_eq]

/-- Witness for C4 (amended): remaining 1 at velocity 4 against a due date
matching `today` gives `daysAhead = 0` and on-track `true`. -/
theorem calculatePrediction_due_date_fields_witness :
    ∃ c, (calculatePrediction ⟨1, 0⟩ (some 4) (some 0) 0).completionDate = some c ∧
      c = 0 + (1 - 0 : ℚ) / 4 * msPerDay ∧
      (calculatePrediction ⟨1, 0⟩ (some 4) (some 0) 0).daysAhead =
        some (jsRound ((0 - c) / msPerDay)) ∧
      ((calculatePrediction ⟨1, 0⟩ (some 4) (some 0) 0).isOnTrack = some true ↔
        0 ≤ jsRound ((0 - c) / msPerDay)) ∧
      (calculatePrediction ⟨1, 0⟩ (some 4) (some 0) 0).idealVelocity =
        (if 0 < ((0 : ℚ) - 0) / msPerDay then
          some ((1 - 0 : ℚ) / (((0 : ℚ) - 0) / msPerDay))
        else none) :=
  calculatePrediction_due_date_fields ⟨1, 0⟩ 4 0 0 (by norm_num) (by norm_num)

end PredictionCalc

namespace AverageCalc

/-- An `IterationData` record (shared type definitions module): a categorical
bar with a name, numeric estimate, optional group and draw-order index. -/
structure IterationData where
  name : String
  estimate : ℚ
  groupName : Option String
  index : ℤ
deriving DecidableEq, Repr

/-- The `AverageResult` record of the average calculator module. -/
structure AverageResult where
  average : Option ℚ
  count : ℕ
  total : ℚ
  selectedIterations : List IterationData
deriving DecidableEq, Repr

/-- The no-result record `{average: null, count: 0, total: 0,
selectedIterations: []}` returned in every early-exit path. -/
def noResult : AverageResult :=
  { average := none, count := 0, total := 0, selectedIterations := [] }

/-- The iterations whose name occurs in the caller's selection
(`selectedIterations` in the source). -/
def selectedIterations (iterations : List IterationData)
    (selectedNames : List String) : List IterationData :=
  iterations.filter fun iter => selectedNames.contains iter.name

/-- The selected iterations' estimate sum (`reduce` with initial value 0). -/
def totalEstimate (iterations : List IterationData)
    (selectedNames : List String) : ℚ :=
  (selectedIterations iterations selectedNames).foldl (fun sum iter => sum + iter.estimate) 0

/-- Shallow embedding of `calculateAverageVelocity` (average calculator
module).  The source's `!iterations`/`!selectedNames` null guards have no
analogue in a model without null lists. -/
def calculateAverageVelocity (iterations : List IterationData)
    (selectedNames : List String) : AverageResult :=
  if iterations = [] ∨ selectedNames = [] then noResult
  else if selectedIterations iterations selectedNames = [] then noResult
  else
    { average := some (totalEstimate iterations selectedNames /
        (selectedIterations iterations selectedNames).length),
      count := (selectedIterations iterations selectedNames).length,
      total := totalEstimate iterations selectedNames,
      selectedIterations := selectedIterations iterations selectedNames }

/-- C9 counterexample: an empty selection and a stale selection naming no
current record return literally the same no-result record, so the two
no-result cases are not distinguishable from the function's result. -/
theorem calculateAverageVelocity_no_result_indistinguishable :
    calculateAverageVelocity [⟨"a", 5, none, 0⟩] [] =
      calculateAverageVelocity [⟨"a", 5, none, 0⟩] ["b"] ∧
    (calculateAverageVelocity [⟨"a", 5, none, 0⟩] ["b"]).average = none := by
  constructor <;>
    simp [calculateAverageVelocity, selectedIterations, noResult, List.filter]

/-- C9 (amended): when at least one selected name matches a current record,
the result is the matched records' estimate sum divided by their count; when
the selection is empty or no selected name matches, the function returns the
same fixed no-result record in both cases (the caller cannot tell the two
no-result cases apart from the returned value). -/
theorem calculateAverageVelocity_cases (iterations : List IterationData)
    (selectedNames : List String) :
    (selectedNames = [] → calculateAverageVelocity iterations selectedNames = noResult) ∧
    (selectedIterations iterations selectedNames = [] →
      calculateAverageVelocity iterations selectedNames = noResult) ∧
    (selectedIterations iterations selectedNames ≠ [] →
      calculateAverageVelocity iterations selectedNames =
        { average := some (totalEstimate iterations selectedNames /
            (selectedIterations iterations selectedNames).length),
          count := (selectedIterations iterations selectedNames).length,
          total := totalEstimate iterations selectedNames,
          selectedIterations := selectedIterations iterations selectedNames }) := by
  refine ⟨?_, ?_, ?_⟩
  · intro h
    unfold calculateAverageVelocity
    rw [if_pos (Or.inr h)]
  · intro h
    unfold calculateAverageVelocity
    split_ifs <;> simp_all
  · intro h
    have hiter : iterations ≠ [] := by
      intro hnil
      exact h (by simp [selectedIterations, hnil])
    have hnames : selectedNames ≠ [] := by
      intro hnil
      apply h
      simp only [selectedIterations, hnil]
      simp [List.filter_eq_nil_iff]
    unfold calculateAverageVelocity
    rw [if_neg (by simp [hiter, hnames]), if_neg h]

/-- Witness for C9 (amended): two matched records with estimates 4 and 6
average to 5. -/
theorem calculateAverageVelocity_cases_witness :
    calculateAverageVelocity [⟨"a", 4, none, 0⟩, ⟨"b", 6, none, 1⟩] ["a", "b"] =
      { average := some ((10 : ℚ) / 2), count := 2, total := 10,
        selectedIterations := [⟨"a", 4, none, 0⟩, ⟨"b", 6, none, 1⟩] } := by
  rw [(calculateAverageVelocity_cases [⟨"a", 4, none, 0⟩, ⟨"b", 6, none, 1⟩] ["a", "b"]).2.2
    (by simp [selectedIterations, List.filter])]
  norm_num [selectedIterations, totalEstimate, List.filter]

end AverageCalc

namespace SvgExtractor

/-- Milliseconds per day as a rational. -/
def msPerDay : ℚ := 86400000

/-- A pixel-space point from the vector markup. -/
structure PixelPoint where
  x : ℚ
  y : ℚ
deriving DecidableEq, Repr

/-- The plot rectangle read from the background element. -/
structure PlotBox where
  plotLeft : ℚ
  plotTop : ℚ
  plotWidth : ℚ
  plotHeight : ℚ
deriving DecidableEq, Repr

/-- A reconstructed observation.  The date is a rational timestamp because
`parsePathData` interpolates fractional timestamps. -/
structure DataPoint where
  date : ℚ
  value : ℚ
deriving DecidableEq, Repr

/-- The chart's inferred time span (`dateRange.start.getTime()` and
`dateRange.end.getTime()` in the source; the source's field name `end` is a
Lean keyword, hence `startTime`/`endTime`). -/
structure TimeRange where
  startTime : ℚ
  endTime : ℚ
deriving DecidableEq, Repr

/-- One tokenized path command: the single-letter opcode and the numeric
operands the source's regex attaches to it.  The model starts from this
tokenized form; the source's regex split of the raw string into exactly
these (opcode, operands) groups is not re-modelled. -/
abbrev SvgCmd := Char × List ℚ

/-- The `M`/`L` loop: consume operands two at a time, set the cursor to each
absolute pair and emit it; a trailing unpaired operand is skipped. -/
def runAbsPairs : List ℚ → ℚ → ℚ → (ℚ × ℚ) × List PixelPoint
  | x :: y :: rest, _, _ =>
      let r := runAbsPairs rest x y
      (r.1, ⟨x, y⟩ :: r.2)
  | _, cx, cy => ((cx, cy), [])

/-- The `m`/`l` loop: accumulate relative pairs onto the cursor. -/
def runRelPairs : List ℚ → ℚ → ℚ → (ℚ × ℚ) × List PixelPoint
  | x :: y :: rest, cx, cy =>
      let r := runRelPairs rest (cx + x) (cy + y)
      (r.1, ⟨cx + x, cy + y⟩ :: r.2)
  | _, cx, cy => ((cx, cy), [])

/-- The `H` loop: each operand sets the x coordinate. -/
def runAbsH : List ℚ → ℚ → ℚ → (ℚ × ℚ) × List PixelPoint
  | a :: rest, _, cy =>
      let r := runAbsH rest a cy
      (r.1, ⟨a, cy⟩ :: r.2)
  | [], cx, cy => ((cx, cy), [])

/-- The `h` loop: each operand shifts the x coordinate. -/
def runRelH : List ℚ → ℚ → ℚ → (ℚ × ℚ) × List PixelPoint
  | a :: rest, cx, cy =>
      let r := runRelH rest (cx + a) cy
      (r.1, ⟨cx + a, cy⟩ :: r.2)
  | [], cx, cy => ((cx, cy), [])

/-- The `V` loop: each operand sets the y coordinate. -/
def runAbsV : List ℚ → ℚ → ℚ → (ℚ × ℚ) × List PixelPoint
  | a :: rest, cx, _ =>
      let r := runAbsV rest cx a
      (r.1, ⟨cx, a⟩ :: r.2)
  | [], cx, cy => ((cx, cy), [])

/-- The `v` loop: each operand shifts the y coordinate. -/
def runRelV : List ℚ → ℚ → ℚ → (ℚ × ℚ) × List PixelPoint
  | a :: rest, cx, cy =>
      let r := runRelV rest cx (cy + a)
      (r.1, ⟨cx, cy + a⟩ :: r.2)
  | [], cx, cy => ((cx, cy), [])

/-- The `C` loop: consume six operands per segment, emitting only the
absolute terminal point; an incomplete trailing segment is skipped. -/
def runAbsC : List ℚ → ℚ → ℚ → (ℚ × ℚ) × List PixelPoint
  | _ :: _ :: _ :: _ :: e :: f :: rest, _, _ =>
      let r := runAbsC rest e f
      (r.1, ⟨e, f⟩ :: r.2)
  | _, cx, cy => ((cx, cy), [])

/-- The `c` loop: like `C` with the terminal point offsets accumulated onto
the cursor (control-point offsets are discarded). -/
def runRelC : List ℚ → ℚ → ℚ → (ℚ × ℚ) × List PixelPoint
  | _ :: _ :: _ :: _ :: e :: f :: rest, cx, cy =>
      let r := runRelC rest (cx + e) (cy + f)
      (r.1, ⟨cx + e, cy + f⟩ :: r.2)
  | _, cx, cy => ((cx, cy), [])

/-- Dispatch on one opcode, mirroring the `switch` of `parsePathData`;
opcodes without a case (`S,T,Q,A,Z` and lowercase variants) fall through
without emitting points or moving the cursor. -/
def applyCmd (cmd : SvgCmd) (cx cy : ℚ) : (ℚ × ℚ) × List PixelPoint :=
  if cmd.1 = 'M' ∨ cmd.1 = 'L' then runAbsPairs cmd.2 cx cy
  else if cmd.1 = 'm' ∨ cmd.1 = 'l' then runRelPairs cmd.2 cx cy
  else if cmd.1 = 'H' then runAbsH cmd.2 cx cy
  else if cmd.1 = 'h' then runRelH cmd.2 cx cy
  else if cmd.1 = 'V' then runAbsV cmd.2 cx cy
  else if cmd.1 = 'v' then runRelV cmd.2 cx cy
  else if cmd.1 = 'C' then runAbsC cmd.2 cx cy
  else if cmd.1 = 'c' then runRelC cmd.2 cx cy
  else ((cx, cy), [])

/-- The command loop of `parsePathData`: thread the cursor through the
tokenized commands, collecting every emitted pixel point (`allPoints`). -/
def collectPoints : List SvgCmd → ℚ → ℚ → List PixelPoint
  | [], _, _ => []
  | c :: rest, cx, cy =>
      let r := applyCmd c cx cy
      r.2 ++ collectPoints rest r.1.1 r.1.2

/-- The in-plot-box test with the source's ±1px tolerance. -/
def isPointInPlotBox (x y : ℚ) (plotBox : PlotBox) : Bool :=
  decide (plotBox.plotLeft - 1 ≤ x ∧ x ≤ plotBox.plotLeft + plotBox.plotWidth + 1 ∧
    plotBox.plotTop - 1 ≤ y ∧ y ≤ plotBox.plotTop + plotBox.plotHeight + 1)

/-- Pixel-to-value conversion of the coordinate-domain mapper. -/
def pixelToValue (pixelY plotTop plotHeight yMin yMax : ℚ) : ℚ :=
  yMin + (plotTop + plotHeight - pixelY) / plotHeight * (yMax - yMin)

/-- The calendar day of a timestamp (the `toISOString` day prefix used as
the decimation key). -/
def dayOf (t : ℚ) : ℤ := ⌊t / msPerDay⌋

/-- The decimation loop of `sampleByDay`: keep a point when its day differs
from the day of the last kept point. -/
def sampleByDayGo : List DataPoint → Option ℤ → List DataPoint
  | [], _ => []
  | p :: rest, lastDate =>
      if some (dayOf p.date) = lastDate then sampleByDayGo rest lastDate
      else p :: sampleByDayGo rest (some (dayOf p.date))

/-- `sampleByDay`: decimate a date-sorted list to the first point of each
distinct calendar day. -/
def sampleByDay (points : List DataPoint) : List DataPoint :=
  sampleByDayGo points none

/-- Comparator of the `dataPoints.sort((a, b) => a.date - b.date)` call. -/
def dpLe (a b : DataPoint) : Prop := a.date ≤ b.date

instance : DecidableRel dpLe := fun a b => Rat.instDecidableLe a.date b.date

/-- Shallow embedding of `parsePathData`.  The path string is already
tokenized (`none` models a null/empty `d` attribute); `now` stands for the
`new Date()` assigned to every point when no date range is known. -/
def parsePathData (d : Option (List SvgCmd)) (plotBox : PlotBox)
    (dateRange : Option TimeRange) (yMin yMax : ℚ) (now : ℚ) : List DataPoint :=
  match d with
  | none => []
  | some cmds =>
    let allPoints := collectPoints cmds 0 0
    let filteredPoints := allPoints.filter fun p => isPointInPlotBox p.x p.y plotBox
    match dateRange with
    | none =>
        filteredPoints.map fun p =>
          ⟨now, pixelToValue p.y plotBox.plotTop plotBox.plotHeight yMin yMax⟩
    | some dr =>
        let timeRange := dr.endTime - dr.startTime
        let dataPoints := filteredPoints.map fun p =>
          ⟨dr.startTime + (p.x - plotBox.plotLeft) / plotBox.plotWidth * timeRange,
            pixelToValue p.y plotBox.plotTop plotBox.plotHeight yMin yMax⟩
        sampleByDay (List.insertionSort dpLe dataPoints)

/-- Chunk an operand list into coordinate pairs, dropping a trailing
unpaired operand. -/
def chunkPairs : List ℚ → List PixelPoint
  | x :: y :: rest => ⟨x, y⟩ :: chunkPairs rest
  | _ => []

/-- An absolute-pairs run emits exactly the operand pairs, regardless of the
incoming cursor. -/
lemma runAbsPairs_snd : ∀ (args : List ℚ) (cx cy : ℚ),
    (runAbsPairs args cx cy).2 = chunkPairs args
  | x :: y :: rest, cx, cy => by
      rw [runAbsPairs, chunkPairs]
      simp [runAbsPairs_snd rest x y]
  | [], _, _ => rfl
  | [x], _, _ => rfl

/-- Point count of a pair chunking: half the operand count. -/
lemma chunkPairs_length : ∀ args : List ℚ, (chunkPairs args).length = args.length / 2
  | x :: y :: rest => by
      rw [chunkPairs]
      simp only [List.length_cons, chunkPairs_length rest]
      omega
  | [] => rfl
  | [x] => by simp [chunkPairs]

/-- C7: on a tokenized path of well-formed absolute `M`/`L` commands (each
operand list an even-length list of coordinate pairs), the interpreter
emits exactly the listed coordinate pairs — one output point per pair,
reproducing each pair's absolute coordinates from any starting cursor — and
the output point count is the total number of pairs. -/
theorem collectPoints_absolute_ml (cmds : List SvgCmd)
    (h : ∀ c ∈ cmds, (c.1 = 'M' ∨ c.1 = 'L') ∧ c.2.length % 2 = 0) :
    ∀ cx cy : ℚ,
      collectPoints cmds cx cy = (cmds.map fun c => chunkPairs c.2).flatten ∧
      (collectPoints cmds cx cy).length = (cmds.map fun c => c.2.length / 2).sum := by
  induction cmds with
  | nil => intro cx cy; exact ⟨rfl, rfl⟩
  | cons c rest ih =>
    intro cx cy
    have hc := h c (List.mem_cons_self c rest)
    have hrest := fun d hd => h d (List.mem_cons_of_mem c hd)
    have happ : applyCmd c cx cy = (runAbsPairs c.2 cx cy) := by
      unfold applyCmd
      rw [if_pos hc.1]
    have heq : collectPoints (c :: rest) cx cy =
        chunkPairs c.2 ++ collectPoints rest (runAbsPairs c.2 cx cy).1.1
          (runAbsPairs c.2 cx cy).1.2 := by
      rw [collectPoints, happ, runAbsPairs_snd]
    constructor
    · rw [heq, (ih hrest _ _).1]
      simp
    · rw [heq]
      simp only [List.length_append, chunkPairs_length, (ih hrest _ _).2,
        List.map_cons, List.sum_cons]

/-- Witness for C7: two commands with three coordinate pairs emit exactly
those three points. -/
theorem collectPoints_absolute_ml_witness :
    collectPoints [('M', [1, 2, 3, 4]), ('L', [5, 6])] 0 0 =
      [⟨1, 2⟩, ⟨3, 4⟩, ⟨5, 6⟩] ∧
    (collectPoints [('M', [1, 2, 3, 4]), ('L', [5, 6])] 0 0).length = 3 := by
  have h := collectPoints_absolute_ml [('M', [1, 2, 3, 4]), ('L', [5, 6])]
    (by intro c hc; fin_cases hc <;> simp) 0 0
  refine ⟨?_, ?_⟩
  · rw [h.1]; simp [chunkPairs]
  · rw [h.2]; simp

/-- C10: with a null date range, `parsePathData` returns one data point per
in-bounds pixel point — the plain image of the clipped point list, every
point dated `now` — with the sort and one-point-per-day decimation steps
both skipped. -/
theorem parsePathData_null_dateRange (cmds : List SvgCmd) (plotBox : PlotBox)
    (yMin yMax now : ℚ) :
    parsePathData (some cmds) plotBox none yMin yMax now =
      ((collectPoints cmds 0 0).filter fun p => isPointInPlotBox p.x p.y plotBox).map
        (fun p => ⟨now, pixelToValue p.y plotBox.plotTop plotBox.plotHeight yMin yMax⟩) ∧
    (parsePathData (some cmds) plotBox none yMin yMax now).length =
      ((collectPoints cmds 0 0).filter fun p => isPointInPlotBox p.x p.y plotBox).length := by
  constructor
  · rfl
  · simp [parsePathData]

/-- JavaScript `Math.round` (as in `PredictionCalc.jsRound`). -/
def jsRound (q : ℚ) : ℤ := (q + 1/2).floor

/-- The parsed ground-truth values scanned from point markers
(`PointMarkerValues`; the source's field names `open`/`completed` — `open`
is a Lean keyword, hence the `Val` suffix). -/
structure PointMarkerValues where
  openVal : Option ℚ
  completedVal : Option ℚ
deriving DecidableEq, Repr

/-- The outcome of the total/completed reconciliation step: the reported
totals and the possibly-swapped point clouds. -/
structure ResolvedTotals where
  total : ℚ
  completed : ℚ
  completedData : List DataPoint
  openData : List DataPoint
deriving DecidableEq, Repr

/-- The pre-swap `total`: the ground-truth open value if present, else the
rounded final value of the open cloud, else 0; overridden by
`open + completed` when both ground-truth values are present. -/
def preTotal (pv : PointMarkerValues) (openData : List DataPoint) : ℚ :=
  match pv.openVal, pv.completedVal with
  | some o, some c => o + c
  | some o, none => o
  | none, _ =>
    match openData.getLast? with
    | some p => (jsRound p.value : ℤ)
    | none => 0

/-- The pre-swap `completed`: the ground-truth completed value if present,
else the rounded final value of the completed cloud, else 0. -/
def preCompleted (pv : PointMarkerValues) (completedData : List DataPoint) : ℚ :=
  match pv.completedVal with
  | some c => c
  | none =>
    match completedData.getLast? with
    | some p => (jsRound p.value : ℤ)
    | none => 0

/-- Shallow embedding of the total/completed reconciliation tail of
`extractFromSVG` (the `pointValues`-to-`total`/`completed` assignments, the
`open + completed` override and the consistency swap).  Inputs are the
already-extracted point-marker values and the already-assigned open and
completed clouds. -/
def resolveTotals (pv : PointMarkerValues) (openData completedData : List DataPoint) :
    ResolvedTotals :=
  let total := preTotal pv openData
  let completed := preCompleted pv completedData
  if completed > total ∧ total > 0 then
    { total := completed, completed := total,
      completedData := openData, openData := completedData }
  else
    { total := total, completed := completed,
      completedData := completedData, openData := openData }

/-- C5: with both ground-truth values present and a non-negative open value
the reported total is `open + completed`; and whenever the pre-swap completed
value exceeds a positive pre-swap total, the resolver swaps the two values
and their clouds, after which `completed ≤ total` holds. -/
theorem resolveTotals_spec (pv : PointMarkerValues)
    (openData completedData : List DataPoint) :
    (∀ o c, pv.openVal = some o → pv.completedVal = some c → 0 ≤ o →
      (resolveTotals pv openData completedData).total = o + c) ∧
    (preTotal pv openData < preCompleted pv completedData →
      0 < preTotal pv openData →
      (resolveTotals pv openData completedData).total = preCompleted pv completedData ∧
      (resolveTotals pv openData completedData).completed = preTotal pv openData ∧
      (resolveTotals pv openData completedData).completed ≤
        (resolveTotals pv openData completedData).total ∧
      (resolveTotals pv openData completedData).completedData = openData ∧
      (resolveTotals pv openData completedData).openData = completedData) := by
  constructor
  · intro o c ho hc hnn
    have htot : preTotal pv openData = o + c := by
      unfold preTotal
      rw [ho, hc]
    have hcom : preCompleted pv completedData = c := by
      unfold preCompleted
      rw [hc]
    unfold resolveTotals
    rw [if_neg]
    · exact htot
    · rw [htot, hcom]
      rintro ⟨hgt, -⟩
      linarith
  · intro hlt hpos
    unfold resolveTotals
    rw [if_pos ⟨hlt, hpos⟩]
    exact ⟨rfl, rfl, hlt.le, rfl, rfl⟩

/-- Witness for C5 at the spec's example: ground truth `open = 118`,
`completed = 48` reports `total = 166`. -/
theorem resolveTotals_spec_witness :
    (resolveTotals ⟨some 118, some 48⟩ [] []).total = 166 := by
  rw [(resolveTotals_spec ⟨some 118, some 48⟩ [] []).1 118 48 rfl rfl (by norm_num)]
  norm_num

/-- One parsed point-marker annotation of a role: the numeric value and the
(possibly unparsable) date from the `aria-label` text.  The model starts
from the parsed annotations; the `aria-label` grammar itself is not
re-modelled. -/
structure AnnPoint where
  value : ℚ
  date : Option ℤ
deriving DecidableEq, Repr

/-- The valid points of `findLatestPoint`: those with a parsed date on or
before `todayEnd` (the source's end-of-day `today`). -/
def validPoints (todayEnd : ℤ) (points : List AnnPoint) : List AnnPoint :=
  points.filter fun p =>
    match p.date with
    | some d => decide (d ≤ todayEnd)
    | none => false

/-- Comparator of `validPoints.sort((a, b) => b.date - a.date)`: descending
by date (valid points always carry a date; `getD` is only a formal total
default). -/
def descDateLe (a b : AnnPoint) : Prop := b.date.getD 0 ≤ a.date.getD 0

instance : DecidableRel descDateLe := fun a b =>
  Int.decLe (b.date.getD 0) (a.date.getD 0)

instance : IsTotal AnnPoint descDateLe :=
  ⟨fun a b => le_total (b.date.getD 0) (a.date.getD 0)⟩

instance : IsTrans AnnPoint descDateLe :=
  ⟨fun _ _ _ h1 h2 => le_trans h2 h1⟩

/-- The `findLatestPoint` helper of `extractValuesFromPointMarkers`: among a
role's annotations, the one with the latest date on or before `todayEnd`,
falling back to the last annotation found when none qualifies. -/
def findLatestPoint (todayEnd : ℤ) (points : List AnnPoint) : Option AnnPoint :=
  if points = [] then none
  else if validPoints todayEnd points = [] then points.getLast?
  else (List.insertionSort descDateLe (validPoints todayEnd points)).head?

/-- The assembly of `extractValuesFromPointMarkers`: each role's reported
value is the selected annotation's value (null when no annotation exists). -/
def extractValuesFromPointMarkers (todayEnd : ℤ)
    (openPoints completedPoints : List AnnPoint) : PointMarkerValues :=
  { openVal := (findLatestPoint todayEnd openPoints).map (fun p => p.value),
    completedVal := (findLatestPoint todayEnd completedPoints).map (fun p => p.value) }

/-- C6: when some annotation has a date on or before `todayEnd`, the
selected annotation is a valid one whose date is maximal among the valid
dates; when none has, the chronologically last annotation found is selected;
and the reported role value is the selected annotation's value. -/
theorem findLatestPoint_spec (todayEnd : ℤ) (points : List AnnPoint) :
    (validPoints todayEnd points ≠ [] →
      ∃ q, findLatestPoint todayEnd points = some q ∧
        q ∈ validPoints todayEnd points ∧
        (∃ d, q.date = some d ∧ d ≤ todayEnd ∧
          ∀ p ∈ validPoints todayEnd points, p.date.getD 0 ≤ d)) ∧
    (validPoints todayEnd points = [] → points ≠ [] →
      findLatestPoint todayEnd points = points.getLast?) ∧
    (∀ op : List AnnPoint,
      (extractValuesFromPointMarkers todayEnd op points).completedVal =
        (findLatestPoint todayEnd points).map (fun p => p.value)) ∧
    (∀ cp : List AnnPoint,
      (extractValuesFromPointMarkers todayEnd points cp).openVal =
        (findLatestPoint todayEnd points).map (fun p => p.value)) := by
  refine ⟨?_, ?_, fun _ => rfl, fun _ => rfl⟩
  · intro hval
    have hpts : points ≠ [] := by
      intro h
      exact hval (by simp [validPoints, h])
    have hsorted := List.sorted_insertionSort descDateLe (validPoints todayEnd points)
    have hperm := List.perm_insertionSort descDateLe (validPoints todayEnd points)
    have hs_ne : List.insertionSort descDateLe (validPoints todayEnd points) ≠ [] := by
      intro h
      rw [h] at hperm
      exact hval hperm.symm.eq_nil
    obtain ⟨q, qs, hqs⟩ := List.exists_cons_of_ne_nil hs_ne
    refine ⟨q, ?_, ?_, ?_⟩
    · rw [findLatestPoint, if_neg hpts, if_neg hval, hqs]
      rfl
    · exact hperm.mem_iff.mp (hqs ▸ List.mem_cons_self q qs)
    · have hqmem : q ∈ validPoints todayEnd points :=
        hperm.mem_iff.mp (hqs ▸ List.mem_cons_self q qs)
      have hqd : ∃ d, q.date = some d ∧ d ≤ todayEnd := by
        have := List.mem_filter.mp hqmem
        rcases hq : q.date with - | d
        · rw [hq] at this; simp at this
        · refine ⟨d, rfl, ?_⟩
          have h2 := this.2
          rw [hq] at h2
          simpa using h2
      obtain ⟨d, hd, hdle⟩ := hqd
      refine ⟨d, hd, hdle, ?_⟩
      intro p hp
      have hpmem : p ∈ List.insertionSort descDateLe (validPoints todayEnd points) :=
        hperm.mem_iff.mpr hp
      rw [hqs] at hpmem hsorted
      have : descDateLe q p := by
        rcases List.mem_cons.mp hpmem with h | h
        · rw [h]; exact le_refl (q.date.getD 0)
        · exact List.rel_of_sorted_cons hsorted p h
      have : p.date.getD 0 ≤ q.date.getD 0 := this
      rwa [hd] at this
  · intro hval hpts
    rw [findLatestPoint, if_neg hpts, if_pos hval]

/-- Witness for C6: of two dated annotations on or before day 10, the one
dated day 10 is selected over the one dated day 3. -/
theorem findLatestPoint_spec_witness :
    validPoints 10 [⟨5, some 10⟩, ⟨7, some 3⟩] ≠ [] ∧
    ∃ q, findLatestPoint 10 [⟨5, some 10⟩, ⟨7, some 3⟩] = some q ∧
      q ∈ validPoints 10 [⟨5, some 10⟩, ⟨7, some 3⟩] ∧
      (∃ d, q.date = some d ∧ d ≤ 10 ∧
        ∀ p ∈ validPoints 10 [⟨5, some 10⟩, ⟨7, some 3⟩], p.date.getD 0 ≤ d) :=
  ⟨by simp [validPoints, List.filter],
    (findLatestPoint_spec 10 [⟨5, some 10⟩, ⟨7, some 3⟩]).1
      (by simp [validPoints, List.filter])⟩

/-- The numeric value of a decimal digit character. -/
def digitVal (c : Char) : ℤ := (c.toNat : ℤ) - 48

/-- Skip a run of whitespace, as the greedy `\s*` of the label regexes (the
following regex pieces never match whitespace, so greedy skipping is exact). -/
def skipSpaces : List Char → List Char
  | c :: rest => if c.isWhitespace then skipSpaces rest else c :: rest
  | [] => []

/-- Greedy `(\d{1,2})`: one or two leading digits and the remaining input. -/
def takeDay : List Char → Option (ℤ × List Char)
  | a :: b :: rest =>
      if a.isDigit && b.isDigit then some (10 * digitVal a + digitVal b, rest)
      else if a.isDigit then some (digitVal a, b :: rest)
      else none
  | [a] => if a.isDigit then some (digitVal a, []) else none
  | [] => none

/-- `(\d{4})`: exactly four leading digits. -/
def takeYear4 : List Char → Option ℤ
  | a :: b :: c :: d :: _ =>
      if a.isDigit && b.isDigit && c.isDigit && d.isDigit then
        some (1000 * digitVal a + 100 * digitVal b + 10 * digitVal c + digitVal d)
      else none
  | _ => none

/-- The optional year group `(?:\s*(\d{4}))?`: a year when present, `none`
otherwise (the group is optional, so failure never rejects the match). -/
def optYear (cs : List Char) : Option ℤ := takeYear4 (skipSpaces cs)

/-- After the month part has matched: `\s*(\d{1,2})(?:\s*(\d{4}))?` —
the day and optional year. -/
def dayAndYear (cs : List Char) : Option (ℤ × Option ℤ) :=
  match takeDay (skipSpaces cs) with
  | some (d, rest) => some (d, optYear rest)
  | none => none

/-- Match of `(\d{1,2})月\s*(\d{1,2})(?:\s*(\d{4}))?` anchored at the head
of the input; the month's greedy two-digit attempt backtracks to one digit
exactly as the regex does (at most one alternative can pass the `月`
literal, so no deeper backtracking arises).  Yields (month number, day,
optional year). -/
def matchJpAt (cs : List Char) : Option (ℤ × ℤ × Option ℤ) :=
  match cs with
  | a :: b :: rest =>
      if a.isDigit && b.isDigit then
        match rest with
        | '月' :: rest2 =>
            match dayAndYear rest2 with
            | some (d, y) => some (10 * digitVal a + digitVal b, d, y)
            | none => none
        | _ => none
      else if a.isDigit && b = '月' then
        match dayAndYear rest with
        | some (d, y) => some (digitVal a, d, y)
        | none => none
      else none
  | _ => none

/-- Leftmost match of the East-Asian label pattern: try `matchJpAt` at every
position left to right. -/
def jpSearch : List Char → Option (ℤ × ℤ × Option ℤ)
  | [] => none
  | c :: rest =>
      match matchJpAt (c :: rest) with
      | some r => some r
      | none => jpSearch rest

/-- Match of `([A-Za-z]{3})\s*(\d{1,2})(?:\s*(\d{4}))?` anchored at the head
of the input.  Yields (the three letters, day, optional year). -/
def matchEnAt (cs : List Char) : Option (List Char × ℤ × Option ℤ) :=
  match cs with
  | a :: b :: c :: rest =>
      if a.isAlpha && b.isAlpha && c.isAlpha then
        match dayAndYear rest with
        | some (d, y) => some ([a, b, c], d, y)
        | none => none
      else none
  | _ => none

/-- Leftmost match of the Latin label pattern. -/
def enSearch : List Char → Option (List Char × ℤ × Option ℤ)
  | [] => none
  | c :: rest =>
      match matchEnAt (c :: rest) with
      | some r => some r
      | none => enSearch rest

/-- `MONTH_NAME_TO_NUMBER` lookup after lowercasing, as a zero-based month
index. -/
def monthLookup (cs : List Char) : Option ℤ :=
  match cs.map Char.toLower with
  | ['j', 'a', 'n'] => some 0
  | ['f', 'e', 'b'] => some 1
  | ['m', 'a', 'r'] => some 2
  | ['a', 'p', 'r'] => some 3
  | ['m', 'a', 'y'] => some 4
  | ['j', 'u', 'n'] => some 5
  | ['j', 'u', 'l'] => some 6
  | ['a', 'u', 'g'] => some 7
  | ['s', 'e', 'p'] => some 8
  | ['o', 'c', 't'] => some 9
  | ['n', 'o', 'v'] => some 10
  | ['d', 'e', 'c'] => some 11
  | _ => none

/-- One parsed axis label: zero-based month index, day of month, optional
four-digit year. -/
structure ParsedLabel where
  month : ℤ
  day : ℤ
  year : Option ℤ
deriving DecidableEq, Repr

/-- The `parseDate` helper of `extractDateRangeFromLabels`: the East-Asian
pattern first (its month number is one-based, hence the `- 1`), then the
Latin pattern with the month-name lookup; an unknown month name makes the
whole parse fail, exactly as in the source. -/
def parseDate (cs : List Char) : Option ParsedLabel :=
  match jpSearch cs with
  | some (m, d, y) => some ⟨m - 1, d, y⟩
  | none =>
    match enSearch cs with
    | some (nm, d, y) =>
      match monthLookup nm with
      | some mo => some ⟨mo, d, y⟩
      | none => none
    | none => none

/-- A calendar date as the `(year, monthIndex, day)` arguments of the
source's `new Date(y, m, d)` call (no calendar normalization is modelled;
the labels of interest carry in-range months and days). -/
structure YMD where
  year : ℤ
  month : ℤ
  day : ℤ
deriving DecidableEq, Repr

/-- The inferred label date range (the source's `end` field is a Lean
keyword, hence `stop`). -/
structure LabelRange where
  start : YMD
  stop : YMD
deriving DecidableEq, Repr

/-- JavaScript falsiness of the parsed year in `firstLabel.year || endYear`
and `!firstLabel.year`: absent or zero. -/
def yearFalsy : Option ℤ → Bool
  | none => true
  | some y => decide (y = 0)

/-- Shallow embedding of `extractDateRangeFromLabels`: parse the first and
last label texts and infer missing years — the end label's year defaults to
the current year, the start label's to the end label's year, minus one on a
calendar wrap (start month greater than end month with no explicit start
year).  `currentYear` stands for `new Date().getFullYear()`. -/
def extractDateRangeFromLabels (labels : List (List Char)) (currentYear : ℤ) :
    Option LabelRange :=
  match labels.head?, labels.getLast? with
  | some first, some last =>
    match parseDate first, parseDate last with
    | some fl, some ll =>
      let endYear := if yearFalsy ll.year then currentYear else ll.year.getD 0
      let startYear0 := if yearFalsy fl.year then endYear else fl.year.getD 0
      let startYear :=
        if fl.month > ll.month ∧ yearFalsy fl.year then endYear - 1 else startYear0
      some ⟨⟨startYear, fl.month, fl.day⟩, ⟨endYear, ll.month, ll.day⟩⟩
    | _, _ => none
  | _, _ => none

/-- C8: when the first and last labels parse, the first label omits its year
and the last label's year is absent or a non-zero explicit year, the end
date's year is the explicit year (or the current year when absent) and the
start date's year is the end year, minus one exactly when the start month
number exceeds the end month number; months and days pass through. -/
theorem extractDateRangeFromLabels_year_inference (labels : List (List Char))
    (currentYear : ℤ) (s1 s2 : List Char) (m1 d1 m2 d2 : ℤ) (oy : Option ℤ)
    (h1 : labels.head? = some s1)
    (h2 : labels.getLast? = some s2)
    (hp1 : parseDate s1 = some ⟨m1, d1, none⟩)
    (hp2 : parseDate s2 = some ⟨m2, d2, oy⟩)
    (hy : oy ≠ some 0) :
    extractDateRangeFromLabels labels currentYear =
      some ⟨⟨if m2 < m1 then (oy.getD currentYear) - 1 else oy.getD currentYear, m1, d1⟩,
        ⟨oy.getD currentYear, m2, d2⟩⟩ := by
  unfold extractDateRangeFromLabels
  rw [h1, h2]
  simp only [hp1, hp2]
  cases oy with
  | none =>
      simp only [yearFalsy, Option.getD, gt_iff_lt]
      split_ifs with ha hb <;> simp_all
  | some y =>
      have hy0 : ¬ (y = 0) := fun h => hy (by rw [h])
      simp only [yearFalsy, Option.getD, gt_iff_lt, decide_eq_true_eq]
      split_ifs with ha hb hc hd <;> simp_all

/-- Witness for C8 at the spec's example labels: `12月 1` and `1月 15 2026`
yield start `(2025, month 11, day 1)` and end `(2026, month 0, day 15)`. -/
theorem extractDateRangeFromLabels_year_inference_witness :
    parseDate "12月 1".data = some ⟨11, 1, none⟩ ∧
    parseDate "1月 15 2026".data = some ⟨0, 15, some 2026⟩ ∧
    extractDateRangeFromLabels ["12月 1".data, "1月 15 2026".data] 2026 =
      some ⟨⟨2025, 11, 1⟩, ⟨2026, 0, 15⟩⟩ := by
  refine ⟨by decide, by decide, ?_⟩
  have h := extractDateRangeFromLabels_year_inference
    ["12月 1".data, "1月 15 2026".data] 2026 "12月 1".data "1月 15 2026".data
    11 1 0 15 (some 2026) (by decide) (by decide) (by decide) (by decide) (by decide)
  rw [h]
  decide

end SvgExtractor
